import Mathlib

/-
Verification development for the KidSafe TV embedded-player sandbox.

The definitions below are a shallow embedding of the repository's
sandbox-security module (the `sandboxSecurity` source file), of the
escape-attempt counter logic of the `YouTubePlayer` component, and of the
math-challenge gate of the `DeleteConfirmModal` component.  Effectful
browser interactions (preventDefault, history.pushState, listener
(de)registration, callback invocation) are made explicit: the module state
is a record, the browser's listener registry is a list of subscriptions,
and handling one DOM event returns a record of its observable effects.
-/

namespace KidSafe

/-- Model of the JavaScript `String.prototype.startsWith` used by the
postMessage origin check: the candidate prefix's characters must be an
initial segment of the string's characters. -/
def jsStartsWith (s pre : String) : Bool := pre.data.isPrefixOf s.data

/-- Replaces the first occurrence of `pat` in `s` by `rep`, on character
lists; model of the JavaScript `String.prototype.replace` with a string
pattern, which replaces only the first occurrence. -/
def replaceFirstList (s pat rep : List Char) : List Char :=
  match s with
  | [] => if pat.isEmpty then rep else []
  | c :: t => if pat.isPrefixOf s then rep ++ s.drop pat.length else c :: replaceFirstList t pat rep

/-- Model of the JavaScript `s.replace(pat, rep)` with a string pattern. -/
def jsReplaceFirst (s pat rep : String) : String := ⟨replaceFirstList s.data pat.data rep.data⟩

/-- Substring search on character lists. -/
def containsSubList (s sub : List Char) : Bool :=
  sub.isPrefixOf s ||
    (match s with
     | [] => false
     | _ :: t => containsSubList t sub)

/-- Model of the JavaScript `String.prototype.includes` used by the
suspicious-event check of the postMessage filter. -/
def jsIncludes (s sub : String) : Bool := containsSubList s.data sub.data

/-- The `EscapeType` union of the sandbox-security module: the reason tag
passed to `triggerEscapeDetection`. -/
inductive EscapeType
  | blur
  | visibility
  | focus
  | postMessage
  | navigation
  | fullscreen
deriving DecidableEq, Repr

/-- An escape handler registered through `onEscapeDetected`.  A handler is
identified by `id`; `throws` records whether its body raises when invoked
(the module's own handlers never do, but `triggerEscapeDetection` must
tolerate handlers that do). -/
structure Handler where
  id : Nat
  throws : Bool
deriving DecidableEq, Repr

/-- One subscription installed by `initSandboxSecurity`: each `setup*`
function of the sandbox-security module registers exactly one of these
(a DOM listener, a monkey patch, or a mutation observer) and returns a
cleanup that releases it. -/
inductive Subscription
  | messageListener
  | popstateListener
  | windowOpenPatch
  | targetBlankObserver
  | anchorClickListener
  | keydownListener
  | contextmenuListener
  | touchListeners
  | dblclickListener
  | dragListener
  | fullscreenPatch
deriving DecidableEq, Repr

/-- Whether the subscription's DOM listener is registered in the capturing
phase (`addEventListener(..., true)` or `{ capture: true }` in the
source); patches and the mutation observer are not phase-based. -/
def subscriptionCapture : Subscription → Bool
  | .messageListener => true
  | .popstateListener => false
  | .windowOpenPatch => false
  | .targetBlankObserver => false
  | .anchorClickListener => true
  | .keydownListener => true
  | .contextmenuListener => true
  | .touchListeners => true
  | .dblclickListener => true
  | .dragListener => true
  | .fullscreenPatch => false

/-- One entry of `state.cleanupFunctions`: invoking it releases `sub`.
The `throws` flag records whether the handle raises after doing its work;
the cleanups created by the module never throw, but `cleanupSandboxSecurity`
wraps each invocation in try/catch so that a raising handle cannot stop
the remaining ones. -/
structure Cleanup where
  sub : Subscription
  throws : Bool
deriving DecidableEq, Repr

/-- The module-level `state` record of the sandbox-security module
together with the browser's listener registry (`installed`), which the
module manipulates through `addEventListener`/`removeEventListener` and
the prototype patches. -/
structure SandboxState where
  isInitialized : Bool
  isNavigationLocked : Bool
  isPlaying : Bool
  escapeHandlers : List Handler
  cleanupFunctions : List Cleanup
  installed : List Subscription
deriving DecidableEq, Repr

/-- The initial value of the module's `state` constant. -/
def initialState : SandboxState :=
  { isInitialized := false
    isNavigationLocked := false
    isPlaying := false
    escapeHandlers := []
    cleanupFunctions := []
    installed := [] }

/-- The `ALLOWED_ORIGINS` constant of the sandbox-security module. -/
def ALLOWED_ORIGINS : List String :=
  ["https://www.youtube.com", "https://www.youtube-nocookie.com", "https://youtube.com"]

/-- The `ALLOWED_YOUTUBE_EVENTS` constant of the sandbox-security module. -/
def ALLOWED_YOUTUBE_EVENTS : List String :=
  ["initialDelivery", "onReady", "onStateChange", "onPlaybackQualityChange",
   "onPlaybackRateChange", "onError", "onApiChange", "infoDelivery", "apiInfoDelivery"]

/-- The `BLOCKED_KEYS` constant of the sandbox-security module. -/
def BLOCKED_KEYS : List String :=
  ["f", "F", "Escape", " ", "ArrowUp", "ArrowDown", "ArrowLeft", "ArrowRight",
   "m", "M", "c", "C", "k", "K", "j", "J", "l", "L",
   "0", "1", "2", "3", "4", "5", "6", "7", "8", "9"]

/-- The transformed allow-list entry compared against the message origin:
the source applies `allowed.replace('https://', 'https://').replace('http://', '')`
before the `startsWith` test. -/
def allowedOriginPrefix (allowed : String) : String :=
  jsReplaceFirst (jsReplaceFirst allowed "https://" "https://") "http://" ""

/-- The origin test of `setupPostMessageFilter`:
`ALLOWED_ORIGINS.some(allowed => origin.startsWith(...))`. -/
def originAllowed (origin : String) : Bool :=
  ALLOWED_ORIGINS.any (fun allowed => jsStartsWith origin (allowedOriginPrefix allowed))

/-- The outcome of the message-payload parse step of `setupPostMessageFilter`
(`typeof event.data === 'string' ? JSON.parse(event.data) : event.data`
followed by the `data && typeof data === 'object'` guard and the
`data.event || data.info?.event` probe), as a tagged variant:
`unparseable` when `JSON.parse` throws, `nonObject` when the parsed value
fails the object guard, `objNoEvent` when neither `data.event` nor
`data.info?.event` yields a value, and `objEvent t` when the probe yields
the event-type string `t`. -/
inductive MsgPayload
  | unparseable
  | nonObject
  | objNoEvent
  | objEvent (eventType : String)
deriving DecidableEq, Repr

/-- The event-type string extracted by `data.event || data.info?.event`. -/
def eventTypeOf : MsgPayload → Option String
  | .objEvent t => some t
  | _ => none

/-- The observable effects of handling one DOM event: which event methods
were called, how many history entries were pushed, whether the handler
returned early at the unknown-origin check (with its console warning),
how many long-press timers were started, how many `exitFullscreen` calls
were made, the reasons passed to `triggerEscapeDetection`, and the ids of
the escape handlers invoked as a result. -/
structure Effects where
  defaultPrevented : Bool := false
  propagationStopped : Bool := false
  immediateStopped : Bool := false
  historyPushes : Nat := 0
  originBlocked : Bool := false
  timersSet : Nat := 0
  exitFullscreenCalls : Nat := 0
  escapeTriggers : List EscapeType := []
  handlersInvoked : List Nat := []
deriving DecidableEq, Repr

/-- Invoking one escape handler inside the try block of
`triggerEscapeDetection`: the body runs (its id is the observable
invocation), and the second component tells whether it raised, which the
surrounding catch swallows. -/
def invokeGuarded (h : Handler) : Nat × Bool := (h.id, h.throws)

/-- `triggerEscapeDetection` of the sandbox-security module: iterates the
registered handlers in registration order, each invocation wrapped in
try/catch, so the iteration continues whether or not a handler raised.
Returns the ids invoked, in order. -/
def triggerEscapeDetection : List Handler → List Nat
  | [] => []
  | h :: rest =>
    let r := invokeGuarded h
    r.1 :: triggerEscapeDetection rest

/-- The deny-pattern test of `setupPostMessageFilter`:
`eventType.includes('navigate') || eventType.includes('redirect') || eventType.includes('click')`. -/
def suspiciousEventType (t : String) : Bool :=
  jsIncludes t "navigate" || jsIncludes t "redirect" || jsIncludes t "click"

/-- The `handleMessage` listener body of `setupPostMessageFilter`: an
unknown-origin message is dropped (warning logged) when navigation is
locked; otherwise the payload is parsed, and an event type outside
`ALLOWED_YOUTUBE_EVENTS` matching the deny-pattern triggers escape
detection and `stopImmediatePropagation`; everything else is benign. -/
def handleMessage (locked : Bool) (handlers : List Handler)
    (origin : String) (payload : MsgPayload) : Effects :=
  if !(originAllowed origin) && locked then
    { originBlocked := true }
  else
    match eventTypeOf payload with
    | some eventType =>
      if !(ALLOWED_YOUTUBE_EVENTS.contains eventType) && suspiciousEventType eventType then
        { escapeTriggers := [.postMessage]
          handlersInvoked := triggerEscapeDetection handlers
          immediateStopped := true }
      else {}
    | none => {}

/-- The `handlePopstate` listener body of `setupPopstateInterception`:
while locked, `preventDefault`, push one history entry back, and trigger
escape detection with reason `navigation`. -/
def handlePopstate (s : SandboxState) : Effects :=
  if s.isNavigationLocked then
    { defaultPrevented := true
      historyPushes := 1
      escapeTriggers := [.navigation]
      handlersInvoked := triggerEscapeDetection s.escapeHandlers }
  else {}

/-- The `handleKeyDown` listener body of `setupKeyboardInterception`:
while locked, a key in `BLOCKED_KEYS` is suppressed (`preventDefault`,
`stopPropagation`, `stopImmediatePropagation`), and the `Escape` key
additionally triggers escape detection with reason `fullscreen`. -/
def handleKeyDown (s : SandboxState) (key : String) : Effects :=
  if !s.isNavigationLocked then {}
  else if BLOCKED_KEYS.contains key then
    if key == "Escape" then
      { defaultPrevented := true
        propagationStopped := true
        immediateStopped := true
        escapeTriggers := [.fullscreen]
        handlersInvoked := triggerEscapeDetection s.escapeHandlers }
    else
      { defaultPrevented := true
        propagationStopped := true
        immediateStopped := true }
  else {}

/-- A monitored DOM event.  For the anchor-click listener the boolean
summarizes whether the click target sits inside an anchor whose `href` is
absolute (`http...` or `//...`) and resolves to an origin different from
the app's own; for `fullscreenchange` the boolean is whether
`document.fullscreenElement` is set. -/
inductive DomEvent
  | message (origin : String) (payload : MsgPayload)
  | popstate
  | keydown (key : String)
  | contextmenu
  | dblclick
  | dragstart
  | touchstart
  | anchorClick (crossOrigin : Bool)
  | fullscreenchange (inFullscreen : Bool)
deriving DecidableEq, Repr

/-- Which subscription's handler processes each monitored event type. -/
def subscriptionFor : DomEvent → Subscription
  | .message _ _ => .messageListener
  | .popstate => .popstateListener
  | .keydown _ => .keydownListener
  | .contextmenu => .contextmenuListener
  | .dblclick => .dblclickListener
  | .dragstart => .dragListener
  | .touchstart => .touchListeners
  | .anchorClick _ => .anchorClickListener
  | .fullscreenchange _ => .fullscreenPatch

/-- The effect of running the handler attached to an event's subscription,
per the listener bodies of the sandbox-security module. -/
def handleEvent (s : SandboxState) : DomEvent → Effects
  | .message origin payload => handleMessage s.isNavigationLocked s.escapeHandlers origin payload
  | .popstate => handlePopstate s
  | .keydown key => handleKeyDown s key
  | .contextmenu =>
    if s.isNavigationLocked then { defaultPrevented := true, propagationStopped := true } else {}
  | .dblclick =>
    if s.isNavigationLocked then { defaultPrevented := true, propagationStopped := true } else {}
  | .dragstart =>
    if s.isNavigationLocked then { defaultPrevented := true, propagationStopped := true } else {}
  | .touchstart =>
    if s.isNavigationLocked then { timersSet := 1 } else {}
  | .anchorClick crossOrigin =>
    if !s.isNavigationLocked then {}
    else if crossOrigin then
      { defaultPrevented := true
        propagationStopped := true
        escapeTriggers := [.navigation]
        handlersInvoked := triggerEscapeDetection s.escapeHandlers }
    else {}
  | .fullscreenchange inFullscreen =>
    if inFullscreen && s.isNavigationLocked then
      { exitFullscreenCalls := 1
        escapeTriggers := [.fullscreen]
        handlersInvoked := triggerEscapeDetection s.escapeHandlers }
    else {}

/-- Dispatching one DOM event against the current listener registry: the
handler runs only while its subscription is installed; after the
subscription is removed the event has no observable effect from this
module. -/
def dispatchEvent (s : SandboxState) (e : DomEvent) : Effects :=
  if s.installed.contains (subscriptionFor e) then handleEvent s e else {}

/-- `onEscapeDetected`: adds the handler to the module's `Set` (insertion
order preserved, duplicates ignored). -/
def onEscapeDetected (s : SandboxState) (h : Handler) : SandboxState :=
  if s.escapeHandlers.contains h then s
  else { s with escapeHandlers := s.escapeHandlers ++ [h] }

/-- `lockNavigation`: sets both flags (the two sentinel history pushes it
performs are not part of the module state). -/
def lockNavigation (s : SandboxState) : SandboxState :=
  { s with isNavigationLocked := true, isPlaying := true }

/-- `unlockNavigation`. -/
def unlockNavigation (s : SandboxState) : SandboxState :=
  { s with isNavigationLocked := false, isPlaying := false }

/-- `setPlayingState`. -/
def setPlayingState (s : SandboxState) (playing : Bool) : SandboxState :=
  { s with isPlaying := playing }

/-- The subscriptions pushed by `initSandboxSecurity`, in source order. -/
def standardSubscriptions : List Subscription :=
  [.messageListener, .popstateListener, .windowOpenPatch, .targetBlankObserver,
   .anchorClickListener, .keydownListener, .contextmenuListener, .touchListeners,
   .dblclickListener, .dragListener, .fullscreenPatch]

/-- The cleanup handles recorded by `initSandboxSecurity`: one per
subscription, none of them throwing. -/
def standardCleanups : List Cleanup :=
  standardSubscriptions.map (fun sub => { sub := sub, throws := false })

/-- `initSandboxSecurity`: a no-op (warning logged) while already
initialized; otherwise installs every subscription, records the matching
cleanup handles, and sets `isInitialized`. -/
def initSandboxSecurity (s : SandboxState) : SandboxState :=
  if s.isInitialized then s
  else
    { s with
      cleanupFunctions := s.cleanupFunctions ++ standardCleanups
      installed := s.installed ++ standardSubscriptions
      isInitialized := true }

/-- The `forEach` loop of `cleanupSandboxSecurity`: invokes each recorded
cleanup handle in order against the listener registry, every invocation
wrapped in try/catch, so a handle that raises after releasing its
subscription does not stop the remaining handles.  Returns the registry
after all removals together with the trace of handles invoked. -/
def runCleanups : List Cleanup → List Subscription → List Subscription × List Subscription
  | [], installed => (installed, [])
  | c :: rest, installed =>
    let after := installed.erase c.sub
    let r := runCleanups rest after
    (r.1, c.sub :: r.2)

/-- `cleanupSandboxSecurity`: a no-op while not initialized; otherwise
runs every cleanup handle, empties the cleanup list and the handler set,
and resets all three flags. -/
def cleanupSandboxSecurity (s : SandboxState) : SandboxState :=
  if !s.isInitialized then s
  else
    { isInitialized := false
      isNavigationLocked := false
      isPlaying := false
      escapeHandlers := []
      cleanupFunctions := []
      installed := (runCleanups s.cleanupFunctions s.installed).1 }

/-- The trace of cleanup handles invoked by `cleanupSandboxSecurity`. -/
def cleanupTrace (s : SandboxState) : List Subscription :=
  if !s.isInitialized then []
  else (runCleanups s.cleanupFunctions s.installed).2

/-- The slice of the `YouTubePlayer` component state touched by the
escape-recovery path: the per-session escape-attempt counter, the parent
gate visibility, and the playing flag. -/
structure PlayerHostState where
  escapeAttemptCount : Nat
  showParentGate : Bool
  isPlaying : Bool
deriving DecidableEq, Repr

/-- The initial component state on mount: `useState(0)` for the counter,
`useState(false)` for the gate, `useState(false)` for playing.  Remounting
the Player Host (for a different video id) recreates exactly this state. -/
def initialPlayerHostState : PlayerHostState :=
  { escapeAttemptCount := 0, showParentGate := false, isPlaying := false }

/-- The component events that write the `PlayerHostState` slice during one
mounted session: `handleEscapeAttempt`, the two parent-gate buttons, and
the player state-change callbacks. -/
inductive PlayerEvent
  | escapeAttempt
  | parentGateDismiss
  | parentGateBack
  | statePlaying
  | statePaused
  | stateEnded
deriving DecidableEq, Repr

/-- The state updates performed by each component event.
`handleEscapeAttempt` pauses, increments the counter by one, and shows the
parent gate; the gate buttons hide the gate; the player state-change
callbacks write the playing flag.  No event of the component writes the
counter anywhere else. -/
def playerStep (st : PlayerHostState) : PlayerEvent → PlayerHostState
  | .escapeAttempt =>
    { st with
      isPlaying := false
      escapeAttemptCount := st.escapeAttemptCount + 1
      showParentGate := true }
  | .parentGateDismiss => { st with showParentGate := false }
  | .parentGateBack => { st with showParentGate := false }
  | .statePlaying => { st with isPlaying := true }
  | .statePaused => { st with isPlaying := false }
  | .stateEnded => { st with isPlaying := false }

/-- Running a sequence of component events of one mounted session. -/
def playerRun (st : PlayerHostState) (es : List PlayerEvent) : PlayerHostState :=
  es.foldl playerStep st

/-- The number of escape attempts detected in a sequence of events. -/
def countEscapes : List PlayerEvent → Nat
  | [] => 0
  | .escapeAttempt :: rest => countEscapes rest + 1
  | _ :: rest => countEscapes rest

/-- The `{ question, answer }` value produced by `generateMathProblem` of
the `DeleteConfirmModal` component. -/
structure MathProblem where
  question : String
  answer : Int
deriving DecidableEq, Repr

/-- The `operators` array of `generateMathProblem`. -/
def OPERATORS : List String := ["+", "-", "×"]

/-- `generateMathProblem` of the `DeleteConfirmModal` component, with the
three `Math.random()` draws supplied as natural-number oracles:
`ra % 10` models `Math.floor(Math.random() * 10)` (so `a` ranges over
5..14 and `b` over 1..10) and `rop % 3` models the operator index.  The
`switch` computes the expected answer, defaulting to addition. -/
def generateMathProblem (ra rb rop : Nat) : MathProblem :=
  let a : Int := Int.ofNat (ra % 10 + 5)
  let b : Int := Int.ofNat (rb % 10 + 1)
  let op : String := OPERATORS.getD (rop % 3) "+"
  let answer : Int :=
    if op = "+" then a + b
    else if op = "-" then a - b
    else if op = "×" then a * b
    else a + b
  { question := s!"{a} {op} {b} = ?", answer := answer }

/-- Model of the JavaScript `parseInt(s, 10)` used by `handleSubmit`:
leading whitespace is skipped, an optional sign is read, then the longest
leading run of decimal digits; the result is `none` (`NaN`) when that run
is empty, and trailing non-digit characters are ignored. -/
def parseIntJs (s : String) : Option Int :=
  let cs := s.data.dropWhile Char.isWhitespace
  match cs with
  | '-' :: rest =>
    let ds := rest.takeWhile Char.isDigit
    if ds.isEmpty then none
    else some (-(Int.ofNat (ds.foldl (fun n c => n * 10 + (c.toNat - '0'.toNat)) 0)))
  | '+' :: rest =>
    let ds := rest.takeWhile Char.isDigit
    if ds.isEmpty then none
    else some (Int.ofNat (ds.foldl (fun n c => n * 10 + (c.toNat - '0'.toNat)) 0))
  | _ =>
    let ds := cs.takeWhile Char.isDigit
    if ds.isEmpty then none
    else some (Int.ofNat (ds.foldl (fun n c => n * 10 + (c.toNat - '0'.toNat)) 0))

/-- The `DeleteConfirmModal` state slice: the current challenge, the text
of the answer input, the error message, and the deleting flag. -/
structure ModalState where
  mathProblem : MathProblem
  userAnswer : String
  error : String
  isDeleting : Bool
deriving DecidableEq, Repr

/-- The reset effect that runs each time the modal is shown (`useEffect`
on `isOpen`): a fresh problem is generated and the input, error, and
deleting flag are cleared. -/
def showModal (fresh : MathProblem) : ModalState :=
  { mathProblem := fresh, userAnswer := "", error := "", isDeleting := false }

/-- `handleSubmit` of the `DeleteConfirmModal` component, with the fresh
problem generated on a wrong answer supplied as a parameter.  Returns the
updated state and whether `onConfirm` was invoked: a non-numeric input
shows an error; a wrong answer shows an error, regenerates the challenge,
and clears the input; a correct answer sets the deleting flag and invokes
`onConfirm`.  `onCancel` is never invoked from this path. -/
def handleSubmit (st : ModalState) (fresh : MathProblem) : ModalState × Bool :=
  match parseIntJs st.userAnswer with
  | none => ({ st with error := "Please enter a number" }, false)
  | some parsed =>
    if parsed ≠ st.mathProblem.answer then
      ({ st with
          error := "Wrong answer. Try again!"
          mathProblem := fresh
          userAnswer := "" }, false)
    else
      ({ st with isDeleting := true }, true)

/-- A representative state right after `initSandboxSecurity` and
`lockNavigation` with one registered escape handler, used to instantiate
the lifecycle theorems. -/
def lockedReadyState : SandboxState :=
  { isInitialized := true
    isNavigationLocked := true
    isPlaying := true
    escapeHandlers := [⟨1, false⟩]
    cleanupFunctions := standardCleanups
    installed := standardSubscriptions }

/-- An origin that is not any of the allowed YouTube origins but begins
with one of them. -/
def spoofedOrigin : String := "https://www.youtube.com.evil.example"

/-- Each entry of the allow-list is unchanged by the `replace` chain the
source applies before the `startsWith` test: replacing the first
`https://` by itself is the identity, and `http://` does not occur in any
entry. -/
theorem allowedOriginPrefix_eq_self (a : String) (h : a ∈ ALLOWED_ORIGINS) :
    allowedOriginPrefix a = a := by
  have h' : a = "https://www.youtube.com" ∨ a = "https://www.youtube-nocookie.com" ∨
      a = "https://youtube.com" := by simpa [ALLOWED_ORIGINS] using h
  rcases h' with rfl | rfl | rfl <;> decide

/-- An origin that is literally in the allow-list passes the origin test. -/
theorem originAllowed_of_mem (origin : String) (h : origin ∈ ALLOWED_ORIGINS) :
    originAllowed origin = true := by
  refine List.any_eq_true.mpr ⟨origin, h, ?_⟩
  rw [allowedOriginPrefix_eq_self origin h]
  simp [jsStartsWith]

/-- `cleanupSandboxSecurity` invokes every recorded cleanup handle, in
recording order, whether or not any of them raises. -/
theorem runCleanups_trace (cs : List Cleanup) (installed : List Subscription) :
    (runCleanups cs installed).2 = cs.map Cleanup.sub := by
  induction cs generalizing installed with
  | nil => rfl
  | cons c rest ih => simp [runCleanups, ih]

/-- When the recorded cleanups cover the listener registry one-for-one,
running them all empties the registry. -/
theorem runCleanups_cover (cs : List Cleanup) :
    (runCleanups cs (cs.map Cleanup.sub)).1 = [] := by
  induction cs with
  | nil => rfl
  | cons c rest ih => simpa [runCleanups, List.erase_cons_head] using ih

/-- C1, counterexample.  The claim asserts that while locked, a message
whose origin is not in the allow-list is classified as an escape attempt
and triggers the registered escape handlers.  On the code, the concrete
message from `https://evil.example` with payload event `navigate_out`
while locked (and with one handler registered) is dropped at the origin
check instead: no escape classification, no handler invocation. -/
theorem C1_counterexample :
    (handleMessage true [⟨1, false⟩] "https://evil.example" (.objEvent "navigate_out")).escapeTriggers
        = []
    ∧ (handleMessage true [⟨1, false⟩] "https://evil.example" (.objEvent "navigate_out")).handlersInvoked
        = []
    ∧ handleMessage true [⟨1, false⟩] "https://evil.example" (.objEvent "navigate_out")
        = { originBlocked := true } := by
  refine ⟨?_, ?_, ?_⟩ <;> decide

/-- C1, amended.  While locked, a message whose origin fails the (prefix
based) origin test is dropped at the origin check — a warning is logged
but no escape classification happens and no escape handler runs; and a
message whose origin is in the allow-list and whose event field is in the
safe-event set is benign regardless of the locked flag. -/
theorem C1_theorem :
    (∀ (handlers : List Handler) (origin : String) (payload : MsgPayload),
        originAllowed origin = false →
        handleMessage true handlers origin payload = { originBlocked := true })
    ∧ (∀ (locked : Bool) (handlers : List Handler) (origin eventType : String),
        origin ∈ ALLOWED_ORIGINS → eventType ∈ ALLOWED_YOUTUBE_EVENTS →
        handleMessage locked handlers origin (.objEvent eventType) = {}) := by
  constructor
  · intro handlers origin payload h
    simp [handleMessage, h]
  · intro locked handlers origin eventType ho he
    have h1 : originAllowed origin = true := originAllowed_of_mem origin ho
    simp [handleMessage, h1, eventTypeOf]
    intro hn
    exact absurd he hn

/-- C1, witness: the amended theorem applied at a dropped unknown-origin
message and at a benign allow-listed status message. -/
theorem C1_witness :
    handleMessage true [⟨1, false⟩] "https://spoof.test" (.objEvent "onReady")
        = { originBlocked := true }
    ∧ handleMessage false [⟨2, false⟩] "https://www.youtube-nocookie.com" (.objEvent "onStateChange")
        = {} :=
  ⟨C1_theorem.1 [⟨1, false⟩] "https://spoof.test" (.objEvent "onReady") (by decide),
   C1_theorem.2 false [⟨2, false⟩] "https://www.youtube-nocookie.com" "onStateChange"
     (by decide) (by decide)⟩

/-- C2, counterexample.  The claim asserts that every message whose
payload carries an event type outside the allow-list matching a
deny-substring is classified as an escape attempt with propagation
stopped.  The concrete message from `https://attacker.test` with event
`redirect_home` while locked carries exactly such an event type, yet the
code drops it at the origin check: no handler runs and propagation is not
stopped. -/
theorem C2_counterexample :
    ALLOWED_YOUTUBE_EVENTS.contains "redirect_home" = false
    ∧ suspiciousEventType "redirect_home" = true
    ∧ (handleMessage true [⟨1, false⟩] "https://attacker.test" (.objEvent "redirect_home")).handlersInvoked
        = []
    ∧ (handleMessage true [⟨1, false⟩] "https://attacker.test" (.objEvent "redirect_home")).immediateStopped
        = false
    ∧ (handleMessage true [⟨1, false⟩] "https://attacker.test" (.objEvent "redirect_home")).escapeTriggers
        = [] := by
  refine ⟨?_, ?_, ?_, ?_, ?_⟩ <;> decide

/-- C2, amended.  For every message that is not dropped by the origin
check (its origin passes the prefix test, or the lock is off): an event
type outside the allowed YouTube list whose name matches
navigate/redirect/click is classified as an escape attempt, invoking the
escape handlers and stopping immediate propagation.  A message whose
payload does not parse as structured data is treated as benign when not
origin-dropped, and never causes a classification in any case. -/
theorem C2_theorem :
    (∀ (locked : Bool) (handlers : List Handler) (origin eventType : String),
        (originAllowed origin = true ∨ locked = false) →
        ALLOWED_YOUTUBE_EVENTS.contains eventType = false →
        suspiciousEventType eventType = true →
        handleMessage locked handlers origin (.objEvent eventType)
          = { escapeTriggers := [.postMessage]
              handlersInvoked := triggerEscapeDetection handlers
              immediateStopped := true })
    ∧ (∀ (locked : Bool) (handlers : List Handler) (origin : String),
        (originAllowed origin = true ∨ locked = false) →
        handleMessage locked handlers origin .unparseable = {})
    ∧ (∀ (locked : Bool) (handlers : List Handler) (origin : String),
        (handleMessage locked handlers origin .unparseable).escapeTriggers = []
        ∧ (handleMessage locked handlers origin .unparseable).handlersInvoked = []) := by
  refine ⟨?_, ?_, ?_⟩
  · intro locked handlers origin eventType ho he hs
    have he' : eventType ∉ ALLOWED_YOUTUBE_EVENTS := by simpa using he
    rcases ho with ho | ho <;> simp [handleMessage, ho, eventTypeOf, he', hs]
  · intro locked handlers origin ho
    rcases ho with ho | ho <;> simp [handleMessage, ho, eventTypeOf]
  · intro locked handlers origin
    by_cases ho : (!originAllowed origin && locked) = true
    · simp [handleMessage, ho]
    · simp [handleMessage, ho, eventTypeOf]

/-- C2, witness: the amended theorem applied at a suspicious event from an
allow-listed origin while locked (with a throwing second handler) and at
an unparseable payload. -/
theorem C2_witness :
    handleMessage true [⟨1, false⟩, ⟨2, true⟩] "https://www.youtube.com" (.objEvent "navigate_out")
        = { escapeTriggers := [.postMessage]
            handlersInvoked := triggerEscapeDetection [⟨1, false⟩, ⟨2, true⟩]
            immediateStopped := true }
    ∧ handleMessage true [] "https://www.youtube.com" .unparseable = {} :=
  ⟨C2_theorem.1 true [⟨1, false⟩, ⟨2, true⟩] "https://www.youtube.com" "navigate_out"
      (Or.inl (by decide)) (by decide) (by decide),
   C2_theorem.2.1 true [] "https://www.youtube.com" (Or.inl (by decide))⟩

/-- C3.  While locked, every popstate event with the interception
listener installed has its default suppressed, pushes exactly one
history entry to absorb the back action, and runs the escape handlers
exactly once; and for a state of the standard lifecycle, after
`cleanupSandboxSecurity` the popstate listener is removed, so a pop has
no observable effect: no suppression, no history push, no
classification. -/
theorem C3_theorem :
    (∀ s : SandboxState, Subscription.popstateListener ∈ s.installed →
        s.isNavigationLocked = true →
        dispatchEvent s .popstate
          = { defaultPrevented := true
              historyPushes := 1
              escapeTriggers := [.navigation]
              handlersInvoked := triggerEscapeDetection s.escapeHandlers })
    ∧ (∀ s : SandboxState, s.isInitialized = true →
        s.cleanupFunctions = standardCleanups → s.installed = standardSubscriptions →
        dispatchEvent (cleanupSandboxSecurity s) .popstate = {}) := by
  constructor
  · intro s hmem hlock
    simp [dispatchEvent, subscriptionFor, handleEvent, handlePopstate, hlock, hmem]
  · intro s h1 hc hi
    have hclean : cleanupSandboxSecurity s
        = { isInitialized := false
            isNavigationLocked := false
            isPlaying := false
            escapeHandlers := []
            cleanupFunctions := []
            installed := (runCleanups standardCleanups standardSubscriptions).1 } := by
      rw [← hc, ← hi]
      simp [cleanupSandboxSecurity, h1]
    rw [hclean]
    decide

/-- C3, witness: the theorem applied at a freshly initialized, locked
state with one registered handler, and at its teardown. -/
theorem C3_witness :
    dispatchEvent lockedReadyState .popstate
      = { defaultPrevented := true
          historyPushes := 1
          escapeTriggers := [.navigation]
          handlersInvoked := triggerEscapeDetection lockedReadyState.escapeHandlers }
    ∧ dispatchEvent (cleanupSandboxSecurity lockedReadyState) .popstate = {} :=
  ⟨C3_theorem.1 lockedReadyState (by decide) rfl,
   C3_theorem.2 lockedReadyState rfl rfl rfl⟩

/-- C4.  For every initialized state whose recorded cleanups cover the
listener registry, `cleanupSandboxSecurity` invokes every recorded
cleanup handle (the trace lists them all in order, whatever their
throw flags, because each invocation is isolated in try/catch), clears
the escape-handler set and the cleanup list, resets the locked, playing,
and initialized flags, and afterwards dispatching any monitored event
has no observable effect. -/
theorem C4_theorem :
    ∀ s : SandboxState, s.isInitialized = true →
      s.installed = s.cleanupFunctions.map Cleanup.sub →
      cleanupTrace s = s.cleanupFunctions.map Cleanup.sub
      ∧ (cleanupSandboxSecurity s).escapeHandlers = []
      ∧ (cleanupSandboxSecurity s).cleanupFunctions = []
      ∧ (cleanupSandboxSecurity s).isNavigationLocked = false
      ∧ (cleanupSandboxSecurity s).isPlaying = false
      ∧ (cleanupSandboxSecurity s).isInitialized = false
      ∧ ∀ e : DomEvent, dispatchEvent (cleanupSandboxSecurity s) e = {} := by
  intro s h1 h2
  have hclean : cleanupSandboxSecurity s
      = { isInitialized := false
          isNavigationLocked := false
          isPlaying := false
          escapeHandlers := []
          cleanupFunctions := []
          installed := (runCleanups s.cleanupFunctions s.installed).1 } := by
    simp [cleanupSandboxSecurity, h1]
  have hinst : (runCleanups s.cleanupFunctions s.installed).1 = [] := by
    rw [h2]
    exact runCleanups_cover s.cleanupFunctions
  refine ⟨?_, ?_, ?_, ?_, ?_, ?_, ?_⟩
  · simp [cleanupTrace, h1, runCleanups_trace]
  · rw [hclean]
  · rw [hclean]
  · rw [hclean]
  · rw [hclean]
  · rw [hclean]
  · intro e
    rw [hclean]
    simp [dispatchEvent, hinst]

/-- C4, witness: the theorem applied at an initialized, locked state
whose second cleanup handle throws; the trace still lists all three
handles, the state is fully reset, and a subsequent popstate dispatch
has no effect. -/
theorem C4_witness :
    cleanupTrace
        { isInitialized := true
          isNavigationLocked := true
          isPlaying := true
          escapeHandlers := [⟨1, false⟩, ⟨2, true⟩]
          cleanupFunctions :=
            [⟨.messageListener, false⟩, ⟨.popstateListener, true⟩, ⟨.keydownListener, false⟩]
          installed := [.messageListener, .popstateListener, .keydownListener] }
      = [.messageListener, .popstateListener, .keydownListener]
    ∧ (cleanupSandboxSecurity
        { isInitialized := true
          isNavigationLocked := true
          isPlaying := true
          escapeHandlers := [⟨1, false⟩, ⟨2, true⟩]
          cleanupFunctions :=
            [⟨.messageListener, false⟩, ⟨.popstateListener, true⟩, ⟨.keydownListener, false⟩]
          installed := [.messageListener, .popstateListener, .keydownListener] }).isInitialized
      = false
    ∧ dispatchEvent
        (cleanupSandboxSecurity
          { isInitialized := true
            isNavigationLocked := true
            isPlaying := true
            escapeHandlers := [⟨1, false⟩, ⟨2, true⟩]
            cleanupFunctions :=
              [⟨.messageListener, false⟩, ⟨.popstateListener, true⟩, ⟨.keydownListener, false⟩]
            installed := [.messageListener, .popstateListener, .keydownListener] })
        .popstate
      = {} := by
  refine ⟨?_, ?_, ?_⟩
  · exact (C4_theorem _ rfl rfl).1
  · exact (C4_theorem _ rfl rfl).2.2.2.2.2.1
  · exact (C4_theorem _ rfl rfl).2.2.2.2.2.2 .popstate

/-- C5.  `initSandboxSecurity` is idempotent: calling it twice without a
teardown yields exactly the state of calling it once — in particular the
second call installs no additional listeners and records no additional
cleanup handles, so no handler can fire twice for one event. -/
theorem C5_theorem :
    ∀ s : SandboxState,
      initSandboxSecurity (initSandboxSecurity s) = initSandboxSecurity s
      ∧ (initSandboxSecurity (initSandboxSecurity s)).installed
          = (initSandboxSecurity s).installed
      ∧ (initSandboxSecurity (initSandboxSecurity s)).cleanupFunctions
          = (initSandboxSecurity s).cleanupFunctions
      ∧ ∀ e : DomEvent,
          dispatchEvent (initSandboxSecurity (initSandboxSecurity s)) e
            = dispatchEvent (initSandboxSecurity s) e := by
  intro s
  have h : initSandboxSecurity (initSandboxSecurity s) = initSandboxSecurity s := by
    by_cases hi : s.isInitialized
    · simp [initSandboxSecurity, hi]
    · simp [initSandboxSecurity, hi]
  exact ⟨h, by rw [h], by rw [h], fun e => by rw [h]⟩

/-- C6.  `triggerEscapeDetection` invokes every registered handler, in
registration order, each invocation isolated in try/catch so that a
throwing handler does not stop the remaining ones; in particular with
three registered handlers of which the second throws, all three — and so
the first and the third — are invoked. -/
theorem C6_theorem :
    (∀ handlers : List Handler, triggerEscapeDetection handlers = handlers.map Handler.id)
    ∧ triggerEscapeDetection [⟨1, false⟩, ⟨2, true⟩, ⟨3, false⟩] = [1, 2, 3]
    ∧ 1 ∈ triggerEscapeDetection [⟨1, false⟩, ⟨2, true⟩, ⟨3, false⟩]
    ∧ 3 ∈ triggerEscapeDetection [⟨1, false⟩, ⟨2, true⟩, ⟨3, false⟩] := by
  refine ⟨?_, by decide, by decide, by decide⟩
  intro handlers
  induction handlers with
  | nil => rfl
  | cons h rest ih => simp [triggerEscapeDetection, invokeGuarded, ih]

/-- C7.  While locked, every key of `BLOCKED_KEYS` is suppressed by the
capturing-phase keydown listener (`preventDefault`, `stopPropagation`,
`stopImmediatePropagation`); the `f` key raises no escape classification
while `Escape` additionally triggers escape detection; while unlocked no
key is intercepted.  The listed claim keys all belong to the blocked
set. -/
theorem C7_theorem :
    (∀ (s : SandboxState) (key : String),
        Subscription.keydownListener ∈ s.installed →
        s.isNavigationLocked = true →
        BLOCKED_KEYS.contains key = true →
        (dispatchEvent s (.keydown key)).defaultPrevented = true
        ∧ (dispatchEvent s (.keydown key)).propagationStopped = true
        ∧ (dispatchEvent s (.keydown key)).immediateStopped = true)
    ∧ subscriptionCapture .keydownListener = true
    ∧ (∀ s : SandboxState, Subscription.keydownListener ∈ s.installed →
        s.isNavigationLocked = true →
        (dispatchEvent s (.keydown "f")).escapeTriggers = [])
    ∧ (∀ s : SandboxState, Subscription.keydownListener ∈ s.installed →
        s.isNavigationLocked = true →
        dispatchEvent s (.keydown "Escape")
          = { defaultPrevented := true
              propagationStopped := true
              immediateStopped := true
              escapeTriggers := [.fullscreen]
              handlersInvoked := triggerEscapeDetection s.escapeHandlers })
    ∧ (∀ (s : SandboxState) (key : String), s.isNavigationLocked = false →
        dispatchEvent s (.keydown key) = {})
    ∧ ["f", " ", "ArrowUp", "ArrowDown", "ArrowLeft", "ArrowRight", "m", "c", "k", "j", "l",
        "0", "1", "2", "3", "4", "5", "6", "7", "8", "9", "Escape"].all
          (fun k => BLOCKED_KEYS.contains k) = true := by
  refine ⟨?_, rfl, ?_, ?_, ?_, by decide⟩
  · intro s key hmem hlock hb
    have hb' : key ∈ BLOCKED_KEYS := by simpa using hb
    cases hk : (key == "Escape") <;>
      simp [dispatchEvent, subscriptionFor, handleEvent, handleKeyDown, hlock, hmem, hb', hk]
  · intro s hmem hlock
    have hf : ("f" : String) ∈ BLOCKED_KEYS := by decide
    simp [dispatchEvent, subscriptionFor, handleEvent, handleKeyDown, hlock, hmem, hf]
  · intro s hmem hlock
    have he : ("Escape" : String) ∈ BLOCKED_KEYS := by decide
    simp [dispatchEvent, subscriptionFor, handleEvent, handleKeyDown, hlock, hmem, he]
  · intro s key hlock
    by_cases hmem : Subscription.keydownListener ∈ s.installed <;>
      simp [dispatchEvent, subscriptionFor, handleEvent, handleKeyDown, hlock, hmem]

/-- C7, witness: the theorem applied at a locked post-init state for the
space key, the `f` key, the `Escape` key, and at an unlocked state. -/
theorem C7_witness :
    ((dispatchEvent lockedReadyState (.keydown " ")).defaultPrevented = true
      ∧ (dispatchEvent lockedReadyState (.keydown " ")).propagationStopped = true
      ∧ (dispatchEvent lockedReadyState (.keydown " ")).immediateStopped = true)
    ∧ (dispatchEvent lockedReadyState (.keydown "f")).escapeTriggers = []
    ∧ dispatchEvent lockedReadyState (.keydown "Escape")
        = { defaultPrevented := true
            propagationStopped := true
            immediateStopped := true
            escapeTriggers := [.fullscreen]
            handlersInvoked := triggerEscapeDetection lockedReadyState.escapeHandlers }
    ∧ dispatchEvent (unlockNavigation lockedReadyState) (.keydown "Escape") = {} :=
  ⟨C7_theorem.1 lockedReadyState " " (by decide) rfl (by decide),
   C7_theorem.2.2.1 lockedReadyState (by decide) rfl,
   C7_theorem.2.2.2.1 lockedReadyState (by decide) rfl,
   C7_theorem.2.2.2.2.1 (unlockNavigation lockedReadyState) "Escape" rfl⟩

/-- C8.  Within one mounted Player Host session the escape-attempt
counter changes only by the escape-attempt event, which adds exactly one
— so over any event sequence the counter equals its start value plus the
number of detected escape attempts and never decreases — and remounting
the Player Host recreates the initial component state, whose counter is
zero. -/
theorem C8_theorem :
    (∀ (st : PlayerHostState) (es : List PlayerEvent),
        (playerRun st es).escapeAttemptCount = st.escapeAttemptCount + countEscapes es)
    ∧ (∀ (st : PlayerHostState) (es : List PlayerEvent),
        st.escapeAttemptCount ≤ (playerRun st es).escapeAttemptCount)
    ∧ initialPlayerHostState.escapeAttemptCount = 0 := by
  have key : ∀ (es : List PlayerEvent) (st : PlayerHostState),
      (playerRun st es).escapeAttemptCount = st.escapeAttemptCount + countEscapes es := by
    intro es
    induction es with
    | nil => intro st; simp [playerRun, countEscapes]
    | cons e rest ih =>
      intro st
      have h1 := ih (playerStep st e)
      cases e <;> simp [playerRun, playerStep, countEscapes] at h1 ⊢ <;> omega
  refine ⟨fun st es => key es st, fun st es => ?_, rfl⟩
  rw [key es st]
  exact Nat.le_add_right _ _

/-- C9.  `handleSubmit` invokes the confirm action exactly when the
parsed integer input equals the challenge's expected answer; when it does
not invoke confirm, an error message is shown and the deleting flag is
untouched (neither confirm nor cancel runs, so the modal stays open);
showing the modal installs a freshly generated problem and clears the
input, error, and deleting flag; and a wrong parsed answer regenerates
the challenge. -/
theorem C9_theorem :
    (∀ (st : ModalState) (fresh : MathProblem),
        (handleSubmit st fresh).2 = true ↔
          parseIntJs st.userAnswer = some st.mathProblem.answer)
    ∧ (∀ (st : ModalState) (fresh : MathProblem),
        (handleSubmit st fresh).2 = false →
        (handleSubmit st fresh).1.error ≠ ""
        ∧ (handleSubmit st fresh).1.isDeleting = st.isDeleting)
    ∧ (∀ fresh : MathProblem,
        showModal fresh
          = { mathProblem := fresh, userAnswer := "", error := "", isDeleting := false })
    ∧ (∀ (st : ModalState) (fresh : MathProblem) (parsed : Int),
        parseIntJs st.userAnswer = some parsed →
        parsed ≠ st.mathProblem.answer →
        (handleSubmit st fresh).1.mathProblem = fresh) := by
  refine ⟨?_, ?_, fun fresh => rfl, ?_⟩
  · intro st fresh
    cases hp : parseIntJs st.userAnswer with
    | none => simp [handleSubmit, hp]
    | some parsed =>
      by_cases hv : parsed = st.mathProblem.answer <;> simp [handleSubmit, hp, hv]
  · intro st fresh h
    cases hp : parseIntJs st.userAnswer with
    | none => simp [handleSubmit, hp]
    | some parsed =>
      by_cases hv : parsed = st.mathProblem.answer
      · exfalso
        rw [show (handleSubmit st fresh).2 = true by simp [handleSubmit, hp, hv]] at h
        exact Bool.noConfusion h
      · simp [handleSubmit, hp, hv]
  · intro st fresh parsed hp hv
    simp [handleSubmit, hp, hv]

/-- C9, witness: the theorem applied at a wrong answer (`7` against the
challenge `5 + 3`, which regenerates the challenge and keeps the modal
open), at the correct answer (`8`, which invokes confirm), and at the
modal being shown. -/
theorem C9_witness :
    ((handleSubmit
        { mathProblem := ⟨"5 + 3 = ?", 8⟩, userAnswer := "7", error := "", isDeleting := false }
        ⟨"9 - 2 = ?", 7⟩).1.error ≠ ""
      ∧ (handleSubmit
          { mathProblem := ⟨"5 + 3 = ?", 8⟩, userAnswer := "7", error := "", isDeleting := false }
          ⟨"9 - 2 = ?", 7⟩).1.isDeleting = false)
    ∧ (handleSubmit
        { mathProblem := ⟨"5 + 3 = ?", 8⟩, userAnswer := "7", error := "", isDeleting := false }
        ⟨"9 - 2 = ?", 7⟩).1.mathProblem = ⟨"9 - 2 = ?", 7⟩
    ∧ (handleSubmit
        { mathProblem := ⟨"5 + 3 = ?", 8⟩, userAnswer := "8", error := "", isDeleting := false }
        ⟨"9 - 2 = ?", 7⟩).2 = true
    ∧ showModal (generateMathProblem 0 0 0)
        = { mathProblem := generateMathProblem 0 0 0
            userAnswer := ""
            error := ""
            isDeleting := false } :=
  ⟨C9_theorem.2.1
      { mathProblem := ⟨"5 + 3 = ?", 8⟩, userAnswer := "7", error := "", isDeleting := false }
      ⟨"9 - 2 = ?", 7⟩ (by decide),
   C9_theorem.2.2.2
      { mathProblem := ⟨"5 + 3 = ?", 8⟩, userAnswer := "7", error := "", isDeleting := false }
      ⟨"9 - 2 = ?", 7⟩ 7 (by decide) (by decide),
   (C9_theorem.1
      { mathProblem := ⟨"5 + 3 = ?", 8⟩, userAnswer := "8", error := "", isDeleting := false }
      ⟨"9 - 2 = ?", 7⟩).mpr (by decide),
   C9_theorem.2.2.1 (generateMathProblem 0 0 0)⟩

/-- C10.  The origin check of the postMessage filter is prefix based: any
origin that starts with an allow-list entry passes it.  In particular the
origin `https://www.youtube.com.evil.example`, which equals no allow-list
entry, is treated as allowed, so even while locked such a message is not
dropped at the origin check and proceeds to event-type parsing (here all
the way to an escape classification for a suspicious event type). -/
theorem C10_theorem :
    (∀ origin allowed : String, allowed ∈ ALLOWED_ORIGINS →
        jsStartsWith origin allowed = true → originAllowed origin = true)
    ∧ spoofedOrigin ∉ ALLOWED_ORIGINS
    ∧ originAllowed spoofedOrigin = true
    ∧ (∀ handlers : List Handler,
        (handleMessage true handlers spoofedOrigin (.objEvent "navigate_out")).originBlocked
            = false
        ∧ (handleMessage true handlers spoofedOrigin (.objEvent "navigate_out")).escapeTriggers
            = [.postMessage]) := by
  refine ⟨?_, by decide, by decide, ?_⟩
  · intro origin allowed hmem hstart
    refine List.any_eq_true.mpr ⟨allowed, hmem, ?_⟩
    rw [allowedOriginPrefix_eq_self allowed hmem]
    exact hstart
  · intro handlers
    have h1 : originAllowed spoofedOrigin = true := by decide
    have h2 : ALLOWED_YOUTUBE_EVENTS.contains "navigate_out" = false := by decide
    have h3 : suspiciousEventType "navigate_out" = true := by decide
    have h2' : ("navigate_out" : String) ∉ ALLOWED_YOUTUBE_EVENTS := by decide
    constructor <;> simp [handleMessage, h1, eventTypeOf, h2', h3]

/-- C10, witness: the theorem applied at an origin that extends the bare
`https://youtube.com` allow-list entry with a path and is accepted by the
origin check. -/
theorem C10_witness :
    originAllowed "https://youtube.com.attacker.example" = true :=
  C10_theorem.1 "https://youtube.com.attacker.example" "https://youtube.com"
    (by decide) (by decide)

end KidSafe
